import Mathlib

/-!
Shallow embedding of the MindGuard risk-scoring and emotion-inference core.

Arithmetic is modelled exactly over `ℚ` (Python floats in the source hold the
decimal constants 0.3, 0.15, …; we use their exact rational values).  Python
ints are modelled as `ℤ`.

* `RiskCalculator` embeds `src/backend/risk_calculator.py` (the canonical
  engine of the spec, thresholds 0.40 / 0.70, drivers and actions).
* `AppRisk` embeds `src/backend/app/risk_calculator.py` (the simpler variant,
  thresholds 0.30 / 0.60).
* `AIInsights` embeds the deterministic heuristic fallback of
  `src/backend/ai_insights.py`.
-/

namespace RiskCalculator

/-- Mutable accumulation state of `calculate_risk_score`: the running `risk`
sum and the `drivers` / `actions` lists appended to by the nested `flag`
helper. -/
structure RiskState where
  risk : ℚ
  drivers : List String
  actions : List String
deriving DecidableEq

/-- The nested helper `flag(condition, delta, driver, action)` of
`calculate_risk_score`: when `condition` holds it adds `delta` to the risk,
appends the driver text (the source formats `f"{driver} (+{delta:.2f})"`; the
callers below pass the already-formatted string since every delta is a
constant) and appends the action when one is given. -/
def flag (condition : Prop) [Decidable condition] (delta : ℚ) (driver : String)
    (action : Option String) (s : RiskState) : RiskState :=
  if condition then
    { risk := s.risk + delta
      drivers := s.drivers ++ [driver]
      actions := s.actions ++ action.toList }
  else s

/-- The state after the seven sequential `flag` calls of
`calculate_risk_score` (lines 26-75 of `risk_calculator.py`), starting from
risk 0 and empty lists. -/
def finalState (sleep_hours : ℚ) (mood_score : ℤ) (messages_sent : ℤ)
    (steps : ℤ) (app_usage_hours : ℚ) : RiskState :=
  let s0 : RiskState := ⟨0, [], []⟩
  let s1 := flag (sleep_hours < 4) (3/10) "Severely low sleep (+0.30)"
    (some "Block 30 minutes for deep rest tonight") s0
  let s2 := flag (4 ≤ sleep_hours ∧ sleep_hours < 6) (15/100)
    "Not enough restorative sleep (+0.15)"
    (some "Wind down 30 minutes earlier to aim for 6+ hours") s1
  let s3 := flag (mood_score ≤ 3) (4/10) "Mood is critically low (+0.40)"
    (some "Reach out to someone you trust and share how you feel") s2
  let s4 := flag (3 < mood_score ∧ mood_score ≤ 5) (2/10)
    "Mood trending downward (+0.20)"
    (some "Do a short grounding exercise or journaling session") s3
  let s5 := flag (messages_sent < 3) (15/100)
    "Limited social touchpoints (+0.15)"
    (some "Send a quick check-in message to a friend") s4
  let s6 := flag (steps < 1000) (1/10) "Low movement (+0.10)"
    (some "Take a 5-minute walk or stretch break") s5
  let s7 := flag (app_usage_hours > 6) (1/10) "Heavy screen time (+0.10)"
    (some "Try a mini digital detox for one hour") s6
  s7

/-- Result record of `calculate_risk_score`: the returned 6-tuple
`(risk_score, level, suggestion, color, drivers, actions)`. -/
structure RiskResult where
  risk_score : ℚ
  risk_level : String
  suggestion : String
  color : String
  drivers : List String
  actions : List String
deriving DecidableEq

/-- Python `round(x, 2)`.  Python uses round-half-even; it agrees with
Mathlib `round` (half-up) except at exact half-ties `…/200`, which the engine
never produces (every reachable score is a multiple of 1/20, see
`clampedRisk_num`). -/
def round2 (q : ℚ) : ℚ := (round (q * 100) : ℚ) / 100

/-- Embedding of `calculate_risk_score` (`src/backend/risk_calculator.py`,
lines 5-111): run the seven flags, cap the risk at 1.0, default empty
drivers/actions to the sentinels, then classify by the 0.7 / 0.4
thresholds. -/
def calculate_risk_score (sleep_hours : ℚ) (mood_score : ℤ)
    (messages_sent : ℤ) (steps : ℤ) (app_usage_hours : ℚ) : RiskResult :=
  let s := finalState sleep_hours mood_score messages_sent steps app_usage_hours
  let risk := min s.risk 1
  let drivers := if s.drivers = [] then
    ["Balanced day – no major red flags detected."] else s.drivers
  let actions := if s.actions = [] then
    ["Keep reinforcing the routines that made today feel balanced."] else s.actions
  if risk ≥ 7/10 then
    { risk_score := round2 risk
      risk_level := "high"
      suggestion := "Please consider reaching out to a trusted friend or counselor today. Your wellbeing matters. 💙"
      color := "#FF6B6B"
      drivers := drivers
      actions := actions }
  else if risk ≥ 4/10 then
    { risk_score := round2 risk
      risk_level := "medium"
      suggestion := "Try a short walk or a quick breathing exercise. Small steps make a difference. 🌿"
      color := "#FFE66D"
      drivers := drivers
      actions := actions }
  else
    { risk_score := round2 risk
      risk_level := "low"
      suggestion := "You\x27re doing great! Keep up the healthy habits. ✨"
      color := "#4ECDC4"
      drivers := drivers
      actions := actions }

/-- The `BehavioralMetrics` input record of the spec (timestamp omitted:
unused by the computation). -/
structure BehavioralMetrics where
  sleep_hours : ℚ
  mood_score : ℤ
  messages_sent : ℤ
  steps : ℤ
  app_usage_hours : ℚ
deriving DecidableEq

/-- Well-formedness of the input, as guaranteed by the validation
collaborator: sleep and screen hours in [0,24], mood in [1,10], message and
step counts non-negative. -/
def WellFormed (m : BehavioralMetrics) : Prop :=
  0 ≤ m.sleep_hours ∧ m.sleep_hours ≤ 24 ∧
  1 ≤ m.mood_score ∧ m.mood_score ≤ 10 ∧
  0 ≤ m.messages_sent ∧ 0 ≤ m.steps ∧
  0 ≤ m.app_usage_hours ∧ m.app_usage_hours ≤ 24

instance (m : BehavioralMetrics) : Decidable (WellFormed m) := by
  unfold WellFormed; infer_instance

/-- `evaluate` packages the five scalar arguments of the source function from
a metrics record. -/
def evaluate (m : BehavioralMetrics) : RiskResult :=
  calculate_risk_score m.sleep_hours m.mood_score m.messages_sent m.steps
    m.app_usage_hours

/-- The accumulation state reached on a metrics record. -/
def stateOf (m : BehavioralMetrics) : RiskState :=
  finalState m.sleep_hours m.mood_score m.messages_sent m.steps
    m.app_usage_hours

/-- The raw (pre-clamp) risk sum accumulated by the seven flags. -/
def rawRisk (m : BehavioralMetrics) : ℚ := (stateOf m).risk

/-- The clamped (but unrounded) risk used for threshold classification. -/
def clampedRisk (m : BehavioralMetrics) : ℚ := min (rawRisk m) 1

/-- The threshold classifier applied to the unrounded clamped score
(lines 86-104 of `risk_calculator.py`). -/
def riskLevelOfScore (r : ℚ) : String :=
  if r ≥ 7/10 then "high" else if r ≥ 4/10 then "medium" else "low"

/-- Conditions under which none of the seven rules of the canonical engine
fires. -/
def NoRuleFires (m : BehavioralMetrics) : Prop :=
  ¬(m.sleep_hours < 4) ∧ ¬(4 ≤ m.sleep_hours ∧ m.sleep_hours < 6) ∧
  ¬(m.mood_score ≤ 3) ∧ ¬(3 < m.mood_score ∧ m.mood_score ≤ 5) ∧
  ¬(m.messages_sent < 3) ∧ ¬(m.steps < 1000) ∧ ¬(m.app_usage_hours > 6)

instance (m : BehavioralMetrics) : Decidable (NoRuleFires m) := by
  unfold NoRuleFires; infer_instance

end RiskCalculator

namespace AppRisk

/-- The `BehavioralData` input model of `src/backend/app/models.py`
(timestamp omitted: unused by the risk computation). -/
structure BehavioralData where
  sleep_hours : ℚ
  mood_score : ℤ
  messages_sent : ℤ
  steps : ℤ
  app_usage_hours : ℚ
deriving DecidableEq

/-- Embedding of the simpler variant `calculate_risk_score`
(`src/backend/app/risk_calculator.py`, lines 29-76): sequential if/elif
accumulation over the five factors, then clamp to [0, 1]. -/
def calculate_risk_score (data : BehavioralData) : ℚ :=
  let risk : ℚ := 0
  let risk := risk + (if data.sleep_hours < 4 then 3/10
    else if data.sleep_hours < 6 then 15/100 else 0)
  let risk := risk + (if data.mood_score ≤ 3 then 4/10
    else if data.mood_score ≤ 5 then 2/10 else 0)
  let risk := risk + (if data.messages_sent < 5 then 2/10
    else if data.messages_sent < 10 then 1/10 else 0)
  let risk := risk + (if data.app_usage_hours > 8 then 1/10
    else if data.app_usage_hours > 6 then 5/100 else 0)
  let risk := risk + (if data.steps < 1000 then 1/10
    else if data.steps < 3000 then 5/100 else 0)
  min (max risk 0) 1

/-- Embedding of `get_risk_level` (`src/backend/app/risk_calculator.py`,
lines 79-91): thresholds 0.3 / 0.6.  (`get_intervention_suggestion` and
`predict_risk` draw from `random.choice` and are not needed by any claim;
they are not modelled.) -/
def get_risk_level (risk_score : ℚ) : String :=
  if risk_score < 3/10 then "low"
  else if risk_score < 6/10 then "medium"
  else "high"

end AppRisk

namespace AIInsights

/-- Structured emotion analysis result (`EmotionResult` dataclass,
`src/backend/ai_insights.py` lines 15-35; the `to_dict` serializer is
presentation-only and not modelled). -/
structure EmotionResult where
  primary_emotion : String
  confidence : ℚ
  supporting_emotions : List String
  stress_level : String
  summary : String
  recommendation : String
deriving DecidableEq

/-- Python needle-starts-here test: `leadsWith needle text` is true when
`needle` is an initial segment of `text`. -/
def leadsWith : List Char → List Char → Bool
  | [], _ => true
  | _ :: _, [] => false
  | a :: as, b :: bs => (a == b) && leadsWith as bs

/-- Python substring membership `needle in hay` on character lists. -/
def containsSub (needle : List Char) : List Char → Bool
  | [] => needle.isEmpty
  | b :: rest => leadsWith needle (b :: rest) || containsSub needle rest

/-- The `_NEGATIVE_WORDS` token → label table, in source (insertion)
order. -/
def NEGATIVE_WORDS : List (String × String) :=
  [("anxious", "anxiety"), ("scared", "fear"), ("afraid", "fear"),
   ("tired", "fatigue"), ("exhausted", "fatigue"), ("sad", "sadness"),
   ("depressed", "sadness"), ("lonely", "loneliness"), ("stress", "stress"),
   ("angry", "anger")]

/-- The `_POSITIVE_WORDS` token → label table, in source order. -/
def POSITIVE_WORDS : List (String × String) :=
  [("grateful", "gratitude"), ("happy", "joy"), ("excited", "excitement"),
   ("calm", "calm"), ("peaceful", "calm")]

/-- The `_STRESS_SIGNALS` keyword list. -/
def STRESS_SIGNALS : List String :=
  ["deadline", "pressure", "overwhelmed", "panic", "worry", "urgent"]

/-- `text.lower()` as a character list (all table tokens are ASCII, where
Python `str.lower` and `Char.toLower` agree). -/
def lower (text : String) : List Char := text.data.map Char.toLower

/-- `counts[label] = counts.get(label, 0) + 1` on an insertion-ordered
association list: an existing key keeps its position, a new key is appended
(Python dicts preserve insertion order). -/
def bump (counts : List (String × ℕ)) (label : String) : List (String × ℕ) :=
  match counts with
  | [] => [(label, 1)]
  | (k, v) :: rest =>
      if k = label then (k, v + 1) :: rest else (k, v) :: bump rest label

/-- One scan loop of `_fallback_emotion_analysis`: for each table entry whose
token occurs as a substring of the lowered text, bump its label. -/
def tally (lowered : List Char) (table : List (String × String))
    (counts : List (String × ℕ)) : List (String × ℕ) :=
  table.foldl
    (fun cs p => if containsSub p.1.data lowered then bump cs p.2 else cs)
    counts

/-- The hit-count dict after both scan loops (negative table first, then
positive, as in the source). -/
def emotionCounts (text : String) : List (String × ℕ) :=
  tally (lower text) POSITIVE_WORDS (tally (lower text) NEGATIVE_WORDS [])

/-- `counts.get(k, 0)`: the hit count recorded for a label. -/
def countOf : List (String × ℕ) → String → ℕ
  | [], _ => 0
  | p :: rest, k => if p.1 = k then p.2 else countOf rest k

/-- `max(counts, key=counts.get)` on a non-empty dict: left fold keeping the
earlier key unless a strictly larger count appears, i.e. Python `max`
returns the first key attaining the maximum (first-defined-wins ties). -/
def pickMax (p : String × ℕ) (rest : List (String × ℕ)) : String :=
  (rest.foldl (fun best q => if best.2 < q.2 then q else best) p).1

/-- The `primary` assignment: "calm" when no token matched, else the first
label with the highest hit count. -/
def primaryOf (counts : List (String × ℕ)) : String :=
  match counts with
  | [] => "calm"
  | p :: rest => pickMax p rest

/-- The `supporting` assignment: `[k for k in counts if k != primary]`. -/
def supportingOf (counts : List (String × ℕ)) : List String :=
  match counts with
  | [] => []
  | p :: rest =>
      ((p :: rest).filter (fun q => q.1 ≠ primaryOf (p :: rest))).map Prod.fst

/-- The `confidence` assignment: 0.55 when no token matched, else
`min(0.9, counts[primary] / total)`. -/
def confidenceOf (counts : List (String × ℕ)) : ℚ :=
  match counts with
  | [] => 11/20
  | p :: rest =>
      min (9/10)
        ((countOf (p :: rest) (primaryOf (p :: rest)) : ℚ) /
          (((p :: rest).map Prod.snd).sum : ℚ))

/-- `stress_hits = sum(1 for signal in _STRESS_SIGNALS if signal in
lowered)`. -/
def stressHits (text : String) : ℕ :=
  (STRESS_SIGNALS.filter (fun s => containsSub s.data (lower text))).length

/-- Embedding of `_build_summary` (lines 151-154). -/
def build_summary (primary stress_level : String) : String :=
  "Your journal shows dominant " ++ primary ++ " tones with " ++
    stress_level ++ " stress."

/-- Embedding of `_build_recommendation` (lines 157-164). -/
def build_recommendation (primary stress_level : String) : String :=
  if stress_level = "high" then
    "Pause for deep breathing and reach out to a trusted person today."
  else if stress_level = "medium" then
    "Schedule a short restorative activity and share your feelings with someone you trust."
  else if primary = "gratitude" ∨ primary = "joy" ∨ primary = "calm" then
    "Keep reinforcing these positive habits and note what sparked them."
  else
    "Take a mindful break and practice gentle movement or journaling."

/-- Embedding of `_fallback_emotion_analysis`
(`src/backend/ai_insights.py`, lines 112-148). -/
def fallback_emotion_analysis (text : String) : EmotionResult :=
  let counts := emotionCounts text
  let primary := primaryOf counts
  let supporting := supportingOf counts
  let confidence := confidenceOf counts
  let hits := stressHits text
  let stress_level :=
    if hits ≥ 2 then "high" else if hits = 1 then "medium" else "low"
  { primary_emotion := primary
    confidence := confidence
    supporting_emotions := supporting
    stress_level := stress_level
    summary := build_summary primary stress_level
    recommendation := build_recommendation primary stress_level }

end AIInsights

namespace RiskCalculator

lemma flag_risk (c : Prop) [Decidable c] (δ : ℚ) (d : String)
    (a : Option String) (s : RiskState) :
    (flag c δ d a s).risk = s.risk + (if c then δ else 0) := by
  unfold flag; split_ifs <;> simp

lemma flag_drivers (c : Prop) [Decidable c] (δ : ℚ) (d : String)
    (a : Option String) (s : RiskState) :
    (flag c δ d a s).drivers = s.drivers ++ (if c then [d] else []) := by
  unfold flag; split_ifs <;> simp

lemma flag_actions (c : Prop) [Decidable c] (δ : ℚ) (d : String)
    (a : Option String) (s : RiskState) :
    (flag c δ d a s).actions = s.actions ++ (if c then a.toList else []) := by
  unfold flag; split_ifs <;> simp

lemma rawRisk_eq (m : BehavioralMetrics) :
    rawRisk m =
      (if m.sleep_hours < 4 then (3/10 : ℚ) else 0)
      + (if 4 ≤ m.sleep_hours ∧ m.sleep_hours < 6 then 15/100 else 0)
      + (if m.mood_score ≤ 3 then 4/10 else 0)
      + (if 3 < m.mood_score ∧ m.mood_score ≤ 5 then 2/10 else 0)
      + (if m.messages_sent < 3 then 15/100 else 0)
      + (if m.steps < 1000 then 1/10 else 0)
      + (if m.app_usage_hours > 6 then 1/10 else 0) := by
  simp only [rawRisk, stateOf, finalState, flag_risk]
  ring

lemma evaluate_risk_score (m : BehavioralMetrics) :
    (evaluate m).risk_score = round2 (clampedRisk m) := by
  simp only [evaluate, calculate_risk_score, clampedRisk, rawRisk, stateOf]
  split_ifs <;> rfl

lemma evaluate_risk_level (m : BehavioralMetrics) :
    (evaluate m).risk_level = riskLevelOfScore (clampedRisk m) := by
  simp only [evaluate, calculate_risk_score, clampedRisk, rawRisk, stateOf,
    riskLevelOfScore]
  split_ifs <;> rfl

lemma evaluate_drivers (m : BehavioralMetrics) :
    (evaluate m).drivers =
      (if (stateOf m).drivers = [] then
        ["Balanced day – no major red flags detected."]
      else (stateOf m).drivers) := by
  simp only [evaluate, calculate_risk_score, stateOf]
  split_ifs <;> rfl

lemma evaluate_actions (m : BehavioralMetrics) :
    (evaluate m).actions =
      (if (stateOf m).actions = [] then
        ["Keep reinforcing the routines that made today feel balanced."]
      else (stateOf m).actions) := by
  simp only [evaluate, calculate_risk_score, stateOf]
  split_ifs <;> rfl

lemma rawRisk_num (m : BehavioralMetrics) :
    ∃ n : ℕ, n ≤ 28 ∧ rawRisk m = (n : ℚ) / 20 := by
  rw [rawRisk_eq]
  refine ⟨(if m.sleep_hours < 4 then 6 else 0)
      + (if 4 ≤ m.sleep_hours ∧ m.sleep_hours < 6 then 3 else 0)
      + (if m.mood_score ≤ 3 then 8 else 0)
      + (if 3 < m.mood_score ∧ m.mood_score ≤ 5 then 4 else 0)
      + (if m.messages_sent < 3 then 3 else 0)
      + (if m.steps < 1000 then 2 else 0)
      + (if m.app_usage_hours > 6 then 2 else 0), ?_, ?_⟩
  · split_ifs <;> norm_num
  · push_cast
    split_ifs <;> norm_num

lemma clampedRisk_num (m : BehavioralMetrics) :
    ∃ k : ℕ, k ≤ 20 ∧ clampedRisk m = (k : ℚ) / 20 := by
  obtain ⟨n, _, h⟩ := rawRisk_num m
  unfold clampedRisk
  rw [h]
  rcases le_or_lt n 20 with h20 | h20
  · refine ⟨n, h20, min_eq_left ?_⟩
    rw [div_le_one (by norm_num : (0:ℚ) < 20)]
    exact_mod_cast h20
  · refine ⟨20, le_rfl, ?_⟩
    rw [min_eq_right]
    · norm_num
    · rw [le_div_iff₀ (by norm_num : (0:ℚ) < 20)]
      have : (20 : ℚ) ≤ (n : ℚ) := by exact_mod_cast h20.le
      linarith

lemma round2_div20 (k : ℕ) : round2 ((k : ℚ) / 20) = (k : ℚ) / 20 := by
  unfold round2
  have h : (k : ℚ) / 20 * 100 = ((5 * k : ℕ) : ℚ) := by push_cast; ring
  rw [h, round_natCast]
  push_cast; ring

lemma score_eq_clamped (m : BehavioralMetrics) :
    (evaluate m).risk_score = clampedRisk m := by
  obtain ⟨k, _, h⟩ := clampedRisk_num m
  rw [evaluate_risk_score, h, round2_div20]

lemma stateOf_of_none (m : BehavioralMetrics) (h : NoRuleFires m) :
    stateOf m = ⟨0, [], []⟩ := by
  obtain ⟨h1, h2, h3, h4, h5, h6, h7⟩ := h
  simp [stateOf, finalState, flag, h1, h2, h3, h4, h5, h6, h7]

lemma ite_and_eq {a b : Prop} [Decidable a] [Decidable b] (c : ℚ) :
    (if a ∧ b then c else 0) = if a then (if b then c else 0) else 0 := by
  by_cases ha : a <;> by_cases hb : b <;> simp [ha, hb]

lemma sleep_pair_anti {x y : ℚ} (h : x ≤ y) :
    (if y < 4 then (3/10 : ℚ) else 0)
      + (if 4 ≤ y ∧ y < 6 then (15/100 : ℚ) else 0)
    ≤ (if x < 4 then (3/10 : ℚ) else 0)
      + (if 4 ≤ x ∧ x < 6 then (15/100 : ℚ) else 0) := by
  rw [ite_and_eq, ite_and_eq]
  split_ifs <;> first | (exfalso; linarith) | norm_num

lemma mood_pair_anti {x y : ℤ} (h : x ≤ y) :
    (if y ≤ 3 then (4/10 : ℚ) else 0)
      + (if 3 < y ∧ y ≤ 5 then (2/10 : ℚ) else 0)
    ≤ (if x ≤ 3 then (4/10 : ℚ) else 0)
      + (if 3 < x ∧ x ≤ 5 then (2/10 : ℚ) else 0) := by
  rw [ite_and_eq, ite_and_eq]
  split_ifs <;> first | (exfalso; omega) | norm_num

lemma msg_anti {x y : ℤ} (h : x ≤ y) :
    (if y < 3 then (15/100 : ℚ) else 0) ≤ (if x < 3 then (15/100 : ℚ) else 0) := by
  split_ifs <;> first | (exfalso; omega) | norm_num

lemma steps_anti {x y : ℤ} (h : x ≤ y) :
    (if y < 1000 then (1/10 : ℚ) else 0) ≤ (if x < 1000 then (1/10 : ℚ) else 0) := by
  split_ifs <;> first | (exfalso; omega) | norm_num

lemma usage_mono {x y : ℚ} (h : y ≤ x) :
    (if y > 6 then (1/10 : ℚ) else 0) ≤ (if x > 6 then (1/10 : ℚ) else 0) := by
  split_ifs <;> first | (exfalso; linarith) | norm_num

lemma rawRisk_anti_sleep (m : BehavioralMetrics) {x : ℚ} (h : x ≤ m.sleep_hours) :
    rawRisk m ≤ rawRisk {m with sleep_hours := x} := by
  rw [rawRisk_eq, rawRisk_eq]
  dsimp only
  linarith [sleep_pair_anti h]

lemma rawRisk_anti_mood (m : BehavioralMetrics) {x : ℤ} (h : x ≤ m.mood_score) :
    rawRisk m ≤ rawRisk {m with mood_score := x} := by
  rw [rawRisk_eq, rawRisk_eq]
  dsimp only
  linarith [mood_pair_anti h]

lemma rawRisk_anti_messages (m : BehavioralMetrics) {x : ℤ}
    (h : x ≤ m.messages_sent) :
    rawRisk m ≤ rawRisk {m with messages_sent := x} := by
  rw [rawRisk_eq, rawRisk_eq]
  dsimp only
  linarith [msg_anti h]

lemma rawRisk_anti_steps (m : BehavioralMetrics) {x : ℤ} (h : x ≤ m.steps) :
    rawRisk m ≤ rawRisk {m with steps := x} := by
  rw [rawRisk_eq, rawRisk_eq]
  dsimp only
  linarith [steps_anti h]

lemma rawRisk_mono_usage (m : BehavioralMetrics) {x : ℚ}
    (h : m.app_usage_hours ≤ x) :
    rawRisk m ≤ rawRisk {m with app_usage_hours := x} := by
  rw [rawRisk_eq, rawRisk_eq]
  dsimp only
  linarith [usage_mono h]

end RiskCalculator

namespace AIInsights

lemma fallback_primary (text : String) :
    (fallback_emotion_analysis text).primary_emotion =
      primaryOf (emotionCounts text) := rfl

lemma fallback_supporting (text : String) :
    (fallback_emotion_analysis text).supporting_emotions =
      supportingOf (emotionCounts text) := rfl

lemma fallback_confidence (text : String) :
    (fallback_emotion_analysis text).confidence =
      confidenceOf (emotionCounts text) := rfl

lemma fallback_stress (text : String) :
    (fallback_emotion_analysis text).stress_level =
      (if stressHits text ≥ 2 then "high"
       else if stressHits text = 1 then "medium" else "low") := rfl

lemma tally_no_match (lowered : List Char) (table : List (String × String)) :
    ∀ counts, (∀ p ∈ table, containsSub p.1.data lowered = false) →
      tally lowered table counts = counts := by
  induction table with
  | nil => intro counts _; rfl
  | cons q rest ih =>
      intro counts h
      have hq : containsSub q.1.data lowered = false :=
        h q (List.mem_cons_self q rest)
      have step : tally lowered (q :: rest) counts = tally lowered rest counts := by
        simp [tally, hq]
      rw [step]
      exact ih counts (fun p hp => h p (List.mem_cons_of_mem q hp))

lemma emotionCounts_no_match (text : String)
    (hneg : ∀ p ∈ NEGATIVE_WORDS, containsSub p.1.data (lower text) = false)
    (hpos : ∀ p ∈ POSITIVE_WORDS, containsSub p.1.data (lower text) = false) :
    emotionCounts text = [] := by
  unfold emotionCounts
  rw [tally_no_match _ _ _ hneg, tally_no_match _ _ _ hpos]

lemma primary_not_in_supporting (text : String) :
    (fallback_emotion_analysis text).primary_emotion ∉
      (fallback_emotion_analysis text).supporting_emotions := by
  rw [fallback_primary, fallback_supporting]
  cases h : emotionCounts text with
  | nil => simp [supportingOf]
  | cons p rest =>
      simp only [supportingOf, primaryOf]
      intro hmem
      simp only [List.mem_map, List.mem_filter, decide_eq_true_eq] at hmem
      obtain ⟨q, ⟨_, hne⟩, heq⟩ := hmem
      exact hne heq

lemma fallback_confidence_formula (text : String) (h : emotionCounts text ≠ []) :
    (fallback_emotion_analysis text).confidence =
      min (9/10) ((countOf (emotionCounts text)
          ((fallback_emotion_analysis text).primary_emotion) : ℚ) /
        (((emotionCounts text).map Prod.snd).sum : ℚ)) := by
  rw [fallback_confidence, fallback_primary]
  cases hh : emotionCounts text with
  | nil => exact absurd hh h
  | cons p rest => simp [confidenceOf, primaryOf]

lemma fallback_confidence_le (text : String) :
    (fallback_emotion_analysis text).confidence ≤ 9/10 := by
  rw [fallback_confidence]
  cases hh : emotionCounts text with
  | nil =>
      simp only [confidenceOf]
      norm_num
  | cons p rest =>
      simp only [confidenceOf]
      exact min_le_left _ _

lemma stressHits_of_three (text : String)
    (h1 : containsSub "deadline".data (lower text) = true)
    (h2 : containsSub "pressure".data (lower text) = true)
    (h3 : containsSub "overwhelmed".data (lower text) = true) :
    2 ≤ stressHits text := by
  unfold stressHits STRESS_SIGNALS
  simp only [List.filter_cons, h1, h2, h3, if_true, List.length_cons]
  omega

end AIInsights

open RiskCalculator AIInsights

/-- C1: for every well-formed `BehavioralMetrics` input (sleep and screen
hours in [0,24], mood in [1,10], counts non-negative), the `risk_score`
returned by the canonical `calculate_risk_score` lies in [0, 1]. -/
theorem risk_score_bounded (m : BehavioralMetrics) (_h : WellFormed m) :
    0 ≤ (evaluate m).risk_score ∧ (evaluate m).risk_score ≤ 1 := by
  rw [score_eq_clamped]
  constructor
  · obtain ⟨n, _, hn⟩ := rawRisk_num m
    unfold clampedRisk
    rw [hn]
    exact le_min (by positivity) (by norm_num)
  · exact min_le_right _ _

theorem risk_score_bounded_witness :
    0 ≤ (evaluate ⟨8, 8, 20, 8000, 2⟩).risk_score ∧
      (evaluate ⟨8, 8, 20, 8000, 2⟩).risk_score ≤ 1 :=
  risk_score_bounded ⟨8, 8, 20, 8000, 2⟩ (by decide)

/-- C2: the canonical risk score is monotone in each adverse direction
separately: on well-formed inputs differing only in one field, decreasing
sleep, mood, messages or steps never decreases the score, and increasing
screen time never decreases it. -/
theorem risk_score_monotone (m : BehavioralMetrics) (_hm : WellFormed m) :
    (∀ x, WellFormed {m with sleep_hours := x} → x ≤ m.sleep_hours →
      (evaluate m).risk_score ≤ (evaluate {m with sleep_hours := x}).risk_score) ∧
    (∀ x, WellFormed {m with mood_score := x} → x ≤ m.mood_score →
      (evaluate m).risk_score ≤ (evaluate {m with mood_score := x}).risk_score) ∧
    (∀ x, WellFormed {m with messages_sent := x} → x ≤ m.messages_sent →
      (evaluate m).risk_score ≤ (evaluate {m with messages_sent := x}).risk_score) ∧
    (∀ x, WellFormed {m with steps := x} → x ≤ m.steps →
      (evaluate m).risk_score ≤ (evaluate {m with steps := x}).risk_score) ∧
    (∀ x, WellFormed {m with app_usage_hours := x} → m.app_usage_hours ≤ x →
      (evaluate m).risk_score ≤
        (evaluate {m with app_usage_hours := x}).risk_score) := by
  refine ⟨fun x _ hx => ?_, fun x _ hx => ?_, fun x _ hx => ?_,
    fun x _ hx => ?_, fun x _ hx => ?_⟩ <;>
    rw [score_eq_clamped, score_eq_clamped]
  · exact min_le_min (rawRisk_anti_sleep m hx) le_rfl
  · exact min_le_min (rawRisk_anti_mood m hx) le_rfl
  · exact min_le_min (rawRisk_anti_messages m hx) le_rfl
  · exact min_le_min (rawRisk_anti_steps m hx) le_rfl
  · exact min_le_min (rawRisk_mono_usage m hx) le_rfl

theorem risk_score_monotone_witness :
    (evaluate ⟨8, 8, 20, 8000, 2⟩).risk_score ≤
      (evaluate {(⟨8, 8, 20, 8000, 2⟩ : BehavioralMetrics) with
        sleep_hours := 4}).risk_score :=
  (risk_score_monotone ⟨8, 8, 20, 8000, 2⟩ (by decide)).1 4 (by decide) (by decide)

/-- C3: the canonical engine classifies the unrounded clamped score by the
fixed thresholds 0.70 and 0.40: level "high" exactly when the unrounded
score is at least 0.70, "medium" exactly when it is in [0.40, 0.70), "low"
exactly when it is below 0.40; at the boundary values the classifier gives
0.70 ↦ high, 0.6999 ↦ medium, 0.40 ↦ medium, 0.3999 ↦ low. -/
theorem risk_level_thresholds :
    (∀ m : BehavioralMetrics,
      ((evaluate m).risk_level = "high" ↔ 7/10 ≤ clampedRisk m)) ∧
    (∀ m : BehavioralMetrics,
      ((evaluate m).risk_level = "medium" ↔
        4/10 ≤ clampedRisk m ∧ clampedRisk m < 7/10)) ∧
    (∀ m : BehavioralMetrics,
      ((evaluate m).risk_level = "low" ↔ clampedRisk m < 4/10)) ∧
    riskLevelOfScore (7/10) = "high" ∧
    riskLevelOfScore (6999/10000) = "medium" ∧
    riskLevelOfScore (4/10) = "medium" ∧
    riskLevelOfScore (3999/10000) = "low" := by
  refine ⟨?_, ?_, ?_, ?_, ?_, ?_, ?_⟩
  · intro m
    rw [evaluate_risk_level]
    unfold riskLevelOfScore
    split_ifs with h1 h2
    · exact iff_of_true rfl h1
    · exact iff_of_false (by decide) h1
    · exact iff_of_false (by decide) h1
  · intro m
    rw [evaluate_risk_level]
    unfold riskLevelOfScore
    split_ifs with h1 h2
    · exact iff_of_false (by decide) (fun hc => absurd hc.2 (not_lt.mpr h1))
    · exact iff_of_true rfl ⟨h2, not_le.mp h1⟩
    · exact iff_of_false (by decide) (fun hc => absurd hc.1 h2)
  · intro m
    rw [evaluate_risk_level]
    unfold riskLevelOfScore
    split_ifs with h1 h2
    · exact iff_of_false (by decide)
        (not_lt.mpr (le_trans (by norm_num) h1))
    · exact iff_of_false (by decide) (not_lt.mpr h2)
    · exact iff_of_true rfl (not_le.mp h2)
  · unfold riskLevelOfScore
    rw [if_pos (by norm_num)]
  · unfold riskLevelOfScore
    rw [if_neg (by norm_num), if_pos (by norm_num)]
  · unfold riskLevelOfScore
    rw [if_neg (by norm_num), if_pos (by norm_num)]
  · unfold riskLevelOfScore
    rw [if_neg (by norm_num), if_neg (by norm_num)]

/-- C4: on the all-adverse input (0 h sleep, mood 1, 0 messages, 0 steps,
24 h screen time) one rule per factor fires (five drivers), the raw sum is
1.05, the returned score is the clamped 1.0 and the level is "high". -/
theorem worst_case_clamp :
    rawRisk ⟨0, 1, 0, 0, 24⟩ = 21/20 ∧
    (evaluate ⟨0, 1, 0, 0, 24⟩).risk_score = 1 ∧
    (evaluate ⟨0, 1, 0, 0, 24⟩).risk_level = "high" ∧
    (evaluate ⟨0, 1, 0, 0, 24⟩).drivers =
      ["Severely low sleep (+0.30)", "Mood is critically low (+0.40)",
       "Limited social touchpoints (+0.15)", "Low movement (+0.10)",
       "Heavy screen time (+0.10)"] := by
  have hraw : rawRisk ⟨0, 1, 0, 0, 24⟩ = 21/20 := by
    rw [rawRisk_eq]; norm_num
  have hcl : clampedRisk ⟨0, 1, 0, 0, 24⟩ = 1 := by
    unfold clampedRisk; rw [hraw]; norm_num [min_def]
  refine ⟨hraw, ?_, ?_, ?_⟩
  · rw [score_eq_clamped, hcl]
  · rw [evaluate_risk_level, hcl]
    unfold riskLevelOfScore
    rw [if_pos (by norm_num)]
  · rw [evaluate_drivers]
    have hsd : (stateOf (⟨0, 1, 0, 0, 24⟩ : BehavioralMetrics)).drivers =
        ["Severely low sleep (+0.30)", "Mood is critically low (+0.40)",
         "Limited social touchpoints (+0.15)", "Low movement (+0.10)",
         "Heavy screen time (+0.10)"] := by
      norm_num [stateOf, finalState, flag]
    rw [hsd]
    simp

/-- C5: whenever no rule fires (in particular for the balanced input
8 h sleep, mood 8, 20 messages, 8000 steps, 2 h screen time) the canonical
engine returns score 0.0 and level "low" with exactly the "balanced day"
sentinel driver and the reinforcing sentinel action; and on every input the
drivers and actions lists are non-empty. -/
theorem no_signal_defaults :
    (∀ m : BehavioralMetrics, NoRuleFires m →
      (evaluate m).risk_score = 0 ∧ (evaluate m).risk_level = "low" ∧
      (evaluate m).drivers = ["Balanced day – no major red flags detected."] ∧
      (evaluate m).actions =
        ["Keep reinforcing the routines that made today feel balanced."]) ∧
    (∀ m : BehavioralMetrics,
      (evaluate m).drivers ≠ [] ∧ (evaluate m).actions ≠ []) := by
  constructor
  · intro m h
    have hs : stateOf m = ⟨0, [], []⟩ := stateOf_of_none m h
    have hraw : rawRisk m = 0 := by rw [rawRisk, hs]
    have hcl : clampedRisk m = 0 := by
      unfold clampedRisk; rw [hraw]; norm_num [min_def]
    refine ⟨?_, ?_, ?_, ?_⟩
    · rw [score_eq_clamped, hcl]
    · rw [evaluate_risk_level, hcl]
      unfold riskLevelOfScore
      rw [if_neg (by norm_num), if_neg (by norm_num)]
    · rw [evaluate_drivers, hs]
      simp
    · rw [evaluate_actions, hs]
      simp
  · intro m
    constructor
    · rw [evaluate_drivers]
      split_ifs with h
      · simp
      · exact h
    · rw [evaluate_actions]
      split_ifs with h
      · simp
      · exact h

theorem no_signal_defaults_witness :
    (evaluate ⟨8, 8, 20, 8000, 2⟩).risk_score = 0 ∧
    (evaluate ⟨8, 8, 20, 8000, 2⟩).risk_level = "low" ∧
    (evaluate ⟨8, 8, 20, 8000, 2⟩).drivers =
      ["Balanced day – no major red flags detected."] ∧
    (evaluate ⟨8, 8, 20, 8000, 2⟩).actions =
      ["Keep reinforcing the routines that made today feel balanced."] :=
  no_signal_defaults.1 ⟨8, 8, 20, 8000, 2⟩ (by decide)

/-- C6: on "I feel grateful and calm today" the heuristic fallback returns
primary emotion "gratitude" (the first-defined of the two tied matched
labels), stress "low", supporting emotions exactly the non-primary matched
label, confidence 1/2; in general the primary emotion is never among the
supporting emotions, the confidence equals the primary hit count over the
total hits capped at 0.9 whenever some keyword matched, and the confidence
never exceeds 0.9. -/
theorem fallback_grateful_calm :
    (fallback_emotion_analysis "I feel grateful and calm today").primary_emotion
        = "gratitude" ∧
    (fallback_emotion_analysis "I feel grateful and calm today").stress_level
        = "low" ∧
    (fallback_emotion_analysis "I feel grateful and calm today").supporting_emotions
        = ["calm"] ∧
    (fallback_emotion_analysis "I feel grateful and calm today").confidence
        = 1/2 ∧
    (∀ text, (fallback_emotion_analysis text).primary_emotion ∉
        (fallback_emotion_analysis text).supporting_emotions) ∧
    (∀ text, emotionCounts text ≠ [] →
      (fallback_emotion_analysis text).confidence =
        min (9/10) ((countOf (emotionCounts text)
            ((fallback_emotion_analysis text).primary_emotion) : ℚ) /
          (((emotionCounts text).map Prod.snd).sum : ℚ))) ∧
    (∀ text, (fallback_emotion_analysis text).confidence ≤ 9/10) := by
  have hc : emotionCounts "I feel grateful and calm today" =
      [("gratitude", 1), ("calm", 1)] := by decide
  refine ⟨by decide, ?_, by decide, ?_, primary_not_in_supporting,
    fallback_confidence_formula, fallback_confidence_le⟩
  · rw [fallback_stress]
    have h0 : stressHits "I feel grateful and calm today" = 0 := by decide
    rw [h0]
    norm_num
  · rw [fallback_confidence, hc]
    simp only [confidenceOf, primaryOf, pickMax, List.foldl_cons, List.foldl_nil]
    norm_num [countOf, min_def]

theorem fallback_grateful_calm_witness :
    (fallback_emotion_analysis "I feel sad today").confidence =
      min (9/10) ((countOf (emotionCounts "I feel sad today")
          ((fallback_emotion_analysis "I feel sad today").primary_emotion) : ℚ) /
        (((emotionCounts "I feel sad today").map Prod.snd).sum : ℚ)) :=
  fallback_grateful_calm.2.2.2.2.2.1 "I feel sad today" (by decide)

/-- C7: the fallback stress level is determined solely by the number of
distinct stress-signal keywords occurring in the lower-cased text: at least
two distinct matches give "high", exactly one gives "medium", zero gives
"low"; any text containing "deadline", "pressure" and "overwhelmed" is
classified "high" regardless of emotion keywords. -/
theorem stress_level_rule :
    (∀ text, 2 ≤ stressHits text →
      (fallback_emotion_analysis text).stress_level = "high") ∧
    (∀ text, stressHits text = 1 →
      (fallback_emotion_analysis text).stress_level = "medium") ∧
    (∀ text, stressHits text = 0 →
      (fallback_emotion_analysis text).stress_level = "low") ∧
    (∀ text, containsSub "deadline".data (lower text) = true →
      containsSub "pressure".data (lower text) = true →
      containsSub "overwhelmed".data (lower text) = true →
      (fallback_emotion_analysis text).stress_level = "high") := by
  have hhigh : ∀ text, 2 ≤ stressHits text →
      (fallback_emotion_analysis text).stress_level = "high" := by
    intro t h
    rw [fallback_stress, if_pos h]
  refine ⟨hhigh, ?_, ?_, ?_⟩
  · intro t h
    rw [fallback_stress, h]
    norm_num
  · intro t h
    rw [fallback_stress, h]
    norm_num
  · intro t h1 h2 h3
    exact hhigh t (stressHits_of_three t h1 h2 h3)

theorem stress_level_rule_witness :
    (fallback_emotion_analysis
      "deadline pressure overwhelmed").stress_level = "high" :=
  stress_level_rule.2.2.2 "deadline pressure overwhelmed"
    (by decide) (by decide) (by decide)

/-- C8: the heuristic fallback is a total function returning an
`EmotionResult` for every input string, and when no emotion keyword of
either table occurs in the lower-cased text it returns primary emotion
"calm", no supporting emotions and confidence 0.55. -/
theorem fallback_total_and_default :
    (∀ text, ∃ r : EmotionResult, fallback_emotion_analysis text = r) ∧
    (∀ text,
      (∀ p ∈ NEGATIVE_WORDS, containsSub p.1.data (lower text) = false) →
      (∀ p ∈ POSITIVE_WORDS, containsSub p.1.data (lower text) = false) →
      (fallback_emotion_analysis text).primary_emotion = "calm" ∧
      (fallback_emotion_analysis text).supporting_emotions = [] ∧
      (fallback_emotion_analysis text).confidence = 11/20) := by
  refine ⟨fun text => ⟨_, rfl⟩, ?_⟩
  intro text hneg hpos
  have hc : emotionCounts text = [] := emotionCounts_no_match text hneg hpos
  refine ⟨?_, ?_, ?_⟩
  · rw [fallback_primary, hc]
    rfl
  · rw [fallback_supporting, hc]
    rfl
  · rw [fallback_confidence, hc]
    rfl

theorem fallback_total_and_default_witness :
    (fallback_emotion_analysis "Blue sky").primary_emotion = "calm" ∧
    (fallback_emotion_analysis "Blue sky").supporting_emotions = [] ∧
    (fallback_emotion_analysis "Blue sky").confidence = 11/20 :=
  fallback_total_and_default.2 "Blue sky" (by decide) (by decide)

/-- C9: the two risk-engine variants are not equivalent: a well-formed
input exists on which the canonical engine and the simpler variant return
different levels, and every score in [0.3, 0.4) or [0.6, 0.7) is classified
differently by the two threshold functions. -/
theorem variants_not_equivalent :
    (∃ m : BehavioralMetrics, WellFormed m ∧
      (evaluate m).risk_level ≠ AppRisk.get_risk_level
        (AppRisk.calculate_risk_score
          ⟨m.sleep_hours, m.mood_score, m.messages_sent, m.steps,
            m.app_usage_hours⟩)) ∧
    (∀ r : ℚ, (3/10 ≤ r ∧ r < 4/10) ∨ (6/10 ≤ r ∧ r < 7/10) →
      riskLevelOfScore r ≠ AppRisk.get_risk_level r) := by
  constructor
  · refine ⟨⟨0, 8, 20, 8000, 2⟩, by decide, ?_⟩
    have hraw : rawRisk ⟨0, 8, 20, 8000, 2⟩ = 3/10 := by
      rw [rawRisk_eq]; norm_num
    have hcl : clampedRisk ⟨0, 8, 20, 8000, 2⟩ = 3/10 := by
      unfold clampedRisk; rw [hraw]; norm_num [min_def]
    have hlev : (evaluate ⟨0, 8, 20, 8000, 2⟩).risk_level = "low" := by
      rw [evaluate_risk_level, hcl]
      unfold riskLevelOfScore
      rw [if_neg (by norm_num), if_neg (by norm_num)]
    have happ : AppRisk.calculate_risk_score ⟨0, 8, 20, 8000, 2⟩ = 3/10 := by
      unfold AppRisk.calculate_risk_score
      norm_num [min_def, max_def]
    dsimp only
    rw [hlev, happ]
    unfold AppRisk.get_risk_level
    rw [if_neg (by norm_num), if_pos (by norm_num)]
    decide
  · intro r hr
    unfold riskLevelOfScore AppRisk.get_risk_level
    rcases hr with ⟨h1, h2⟩ | ⟨h1, h2⟩
    · rw [if_neg (not_le.mpr (by linarith)), if_neg (not_le.mpr (by linarith)),
        if_neg (not_lt.mpr h1), if_pos (by linarith)]
      decide
    · rw [if_neg (not_le.mpr h2), if_pos (show r ≥ 4/10 by linarith),
        if_neg (not_lt.mpr (show 3/10 ≤ r by linarith)),
        if_neg (not_lt.mpr h1)]
      decide

theorem variants_not_equivalent_witness :
    riskLevelOfScore (35/100) ≠ AppRisk.get_risk_level (35/100) :=
  variants_not_equivalent.2 (35/100) (Or.inl ⟨by norm_num, by norm_num⟩)

/-- C10: every clamped risk sum the canonical engine can produce is a
natural multiple of 0.05 in [0, 1]; rounding to two decimals is therefore
the identity on every achievable score, the returned risk score equals the
unrounded clamped score, and classifying the returned (rounded) score gives
the same level the engine returned. -/
theorem rounded_score_faithful :
    ∀ m : BehavioralMetrics,
      (∃ k : ℕ, k ≤ 20 ∧ clampedRisk m = (k : ℚ) / 20) ∧
      round2 (clampedRisk m) = clampedRisk m ∧
      (evaluate m).risk_score = clampedRisk m ∧
      riskLevelOfScore ((evaluate m).risk_score) = (evaluate m).risk_level := by
  intro m
  obtain ⟨k, hk, h⟩ := clampedRisk_num m
  refine ⟨⟨k, hk, h⟩, ?_, score_eq_clamped m, ?_⟩
  · rw [h, round2_div20]
  · rw [score_eq_clamped, evaluate_risk_level]
